import Mathlib

/-!
Verification of the core components of a crypto market-data backend:
the memory cache and cache manager and the single-flight data aggregator
(cache_service.py), the websocket connection manager and the volume
anomaly analysis (websocket_service.py), and the circuit breaker
(error_handler.py).

Modelling conventions: Python dictionaries are association lists in
insertion order; Python sets are duplicate-free lists in iteration
order; floating point numbers and timestamps are rationals; raised
exceptions are explicit error results; the ambient clock time.time()
is an explicit parameter.
-/

set_option autoImplicit false

/-! ### Association lists: the model of Python dict -/

/-- First value bound to key k, like Python dict lookup. -/
def alookup {κ α : Type} [DecidableEq κ] (k : κ) : List (κ × α) → Option α
  | [] => none
  | (k2, v) :: rest => if k2 = k then some v else alookup k rest

/-- Bind key k to v, replacing an existing binding in place, appending
otherwise: Python dict assignment, which keeps insertion order. -/
def ainsert {κ α : Type} [DecidableEq κ] (k : κ) (v : α) : List (κ × α) → List (κ × α)
  | [] => [(k, v)]
  | (k2, v2) :: rest => if k2 = k then (k, v) :: rest else (k2, v2) :: ainsert k v rest

/-- Remove every binding of key k: Python del on a dict key. -/
def aerase {κ α : Type} [DecidableEq κ] (k : κ) : List (κ × α) → List (κ × α)
  | [] => []
  | (k2, v2) :: rest => if k2 = k then aerase k rest else (k2, v2) :: aerase k rest

theorem alookup_ainsert_self {κ α : Type} [DecidableEq κ] (k : κ) (v : α) (l : List (κ × α)) :
    alookup k (ainsert k v l) = some v := by
  induction l with
  | nil => simp [ainsert, alookup]
  | cons p rest ih =>
    obtain ⟨k2, v2⟩ := p
    by_cases h : k2 = k
    · simp [ainsert, h, alookup]
    · simp [ainsert, h, alookup, ih]

theorem alookup_ainsert_ne {κ α : Type} [DecidableEq κ] (k j : κ) (v : α) (l : List (κ × α))
    (hne : j ≠ k) : alookup j (ainsert k v l) = alookup j l := by
  induction l with
  | nil => simp [ainsert, alookup, Ne.symm hne]
  | cons p rest ih =>
    obtain ⟨k2, v2⟩ := p
    by_cases h : k2 = k
    · subst h
      simp [ainsert, alookup, Ne.symm hne]
    · by_cases h2 : k2 = j <;> simp [ainsert, h, alookup, h2, ih, hne]

theorem alookup_aerase_self {κ α : Type} [DecidableEq κ] (k : κ) (l : List (κ × α)) :
    alookup k (aerase k l) = none := by
  induction l with
  | nil => simp [aerase, alookup]
  | cons p rest ih =>
    obtain ⟨k2, v2⟩ := p
    by_cases h : k2 = k
    · simp [aerase, h, ih]
    · simp [aerase, h, alookup, ih]

theorem alookup_aerase_ne {κ α : Type} [DecidableEq κ] (k j : κ) (l : List (κ × α))
    (hne : j ≠ k) : alookup j (aerase k l) = alookup j l := by
  induction l with
  | nil => simp [aerase]
  | cons p rest ih =>
    obtain ⟨k2, v2⟩ := p
    by_cases h : k2 = k
    · subst h
      simp [aerase, alookup, Ne.symm hne, ih]
    · by_cases h2 : k2 = j <;> simp [aerase, h, alookup, h2, ih, hne]

/-! ### Circuit breaker (error_handler.py, class CircuitBreaker) -/

/-- Breaker state strings CLOSED, OPEN, HALF_OPEN of error_handler.py. -/
inductive BState where
  | CLOSED
  | OPEN
  | HALF_OPEN
deriving DecidableEq

/-- Fields of CircuitBreaker.__init__ plus its mutable state. -/
structure CircuitBreaker where
  failure_threshold : Nat
  timeout : ℚ
  failure_count : Nat
  last_failure_time : Option ℚ
  state : BState
deriving DecidableEq

/-- CircuitBreaker(failure_threshold, timeout): counter 0, no failure
time, state CLOSED. -/
def CircuitBreaker.init (failure_threshold : Nat) (timeout : ℚ) : CircuitBreaker :=
  { failure_threshold := failure_threshold
    timeout := timeout
    failure_count := 0
    last_failure_time := none
    state := .CLOSED }

/-- CircuitBreaker._should_attempt_reset, with time.time() passed as now. -/
def CircuitBreaker.should_attempt_reset (cb : CircuitBreaker) (now : ℚ) : Bool :=
  match cb.last_failure_time with
  | none => true
  | some t => decide (now - t ≥ cb.timeout)

/-- CircuitBreaker._record_failure, with time.time() passed as now:
increment the counter, record the failure time, open the breaker once
the counter reaches the threshold. -/
def CircuitBreaker.record_failure (cb : CircuitBreaker) (now : ℚ) : CircuitBreaker :=
  let c := cb.failure_count + 1
  { cb with
    failure_count := c
    last_failure_time := some now
    state := if c ≥ cb.failure_threshold then .OPEN else cb.state }

/-- Errors surfaced by CircuitBreaker.call: the HTTP 503 raised when the
breaker is open, or the wrapped exception from the called function. -/
inductive BreakerError (ε : Type) where
  | serviceUnavailable
  | wrapped (e : ε)
deriving DecidableEq

/-- First half of CircuitBreaker.call: the OPEN gate. Returns none when
the call raises HTTP 503 without invoking func, otherwise the breaker
state in which func is invoked (HALF_OPEN after an elapsed cool-down). -/
def CircuitBreaker.preCall (cb : CircuitBreaker) (now : ℚ) : Option CircuitBreaker :=
  if cb.state = .OPEN then
    if cb.should_attempt_reset now then some { cb with state := .HALF_OPEN } else none
  else
    some cb

/-- CircuitBreaker.call at time now. The invoked function is modelled by
its outcome fn (a result or a raised exception). Returns the new breaker
state, the call result, and whether func was invoked at all. -/
def CircuitBreaker.call {ε α : Type} (cb : CircuitBreaker) (now : ℚ) (fn : Except ε α) :
    CircuitBreaker × Except (BreakerError ε) α × Bool :=
  match cb.preCall now with
  | none => (cb, .error .serviceUnavailable, false)
  | some cb1 =>
    match fn with
    | .ok a =>
      (if cb1.state = .HALF_OPEN then { cb1 with state := .CLOSED, failure_count := 0 } else cb1,
       .ok a, true)
    | .error e => (cb1.record_failure now, .error (.wrapped e), true)

/-- Repeated calls through the breaker: each list entry is the call time
and the outcome the wrapped function would produce if invoked. -/
def CircuitBreaker.runCalls {ε α : Type} (l : List (ℚ × Except ε α)) (cb : CircuitBreaker) :
    CircuitBreaker :=
  l.foldl (fun c p => (c.call p.1 p.2).1) cb

/-- Number of failing outcomes in a call list. -/
def countFailures {ε α : Type} (l : List (ℚ × Except ε α)) : Nat :=
  (l.filter (fun p => match p.2 with | .error _ => true | .ok _ => false)).length

/-! ### Memory cache (cache_service.py, class MemoryCache) -/

/-- One entry of MemoryCache.cache: value, expires_at, created_at. -/
structure CacheItem (α : Type) where
  value : α
  expires_at : ℚ
  created_at : ℚ
deriving DecidableEq

/-- Counters of MemoryCache.stats. -/
structure CacheStats where
  hits : Nat
  misses : Nat
  sets : Nat
  deletes : Nat
  evictions : Nat
deriving DecidableEq

/-- MemoryCache: a string-keyed dict of entries plus a default TTL and
statistics counters. -/
structure MemoryCache (α : Type) where
  cache : List (String × CacheItem α)
  default_ttl : ℚ
  stats : CacheStats
deriving DecidableEq

/-- MemoryCache.__init__(default_ttl): empty dict, zeroed counters. -/
def MemoryCache.init (α : Type) (default_ttl : ℚ) : MemoryCache α :=
  { cache := []
    default_ttl := default_ttl
    stats := { hits := 0, misses := 0, sets := 0, deletes := 0, evictions := 0 } }

/-- MemoryCache._is_expired, with time.time() passed as now. -/
def MemoryCache.is_expired {α : Type} (item : CacheItem α) (now : ℚ) : Bool :=
  decide (now > item.expires_at)

/-- MemoryCache._cleanup_expired: drop every entry whose expiry has
passed, counting each as an eviction. -/
def MemoryCache.cleanup_expired {α : Type} (c : MemoryCache α) (now : ℚ) : MemoryCache α :=
  let expired := c.cache.filter (fun p => decide (now > p.2.expires_at))
  { c with
    cache := c.cache.filter (fun p => !decide (now > p.2.expires_at))
    stats := { c.stats with evictions := c.stats.evictions + expired.length } }

/-- MemoryCache.get: a missing key is a miss; an expired entry is
deleted and counts as a miss and an eviction; otherwise the value is a
hit. Returns the updated cache and the result (None modelled as none). -/
def MemoryCache.get {α : Type} (c : MemoryCache α) (key : String) (now : ℚ) :
    MemoryCache α × Option α :=
  match alookup key c.cache with
  | none => ({ c with stats := { c.stats with misses := c.stats.misses + 1 } }, none)
  | some item =>
    if MemoryCache.is_expired item now then
      ({ c with
         cache := aerase key c.cache
         stats := { c.stats with
                    misses := c.stats.misses + 1
                    evictions := c.stats.evictions + 1 } }, none)
    else
      ({ c with stats := { c.stats with hits := c.stats.hits + 1 } }, some item.value)

/-- MemoryCache.set: the Python expression (ttl or self.default_ttl)
falls back to the default when ttl is None and also when it is 0, since
0 is falsy. After inserting, a periodic sweep runs when the dict size is
a multiple of 100. -/
def MemoryCache.set {α : Type} (c : MemoryCache α) (key : String) (v : α) (ttl : Option ℚ)
    (now : ℚ) : MemoryCache α :=
  let t := match ttl with
    | none => c.default_ttl
    | some t0 => if t0 = 0 then c.default_ttl else t0
  let c2 := { c with
    cache := ainsert key { value := v, expires_at := now + t, created_at := now } c.cache
    stats := { c.stats with sets := c.stats.sets + 1 } }
  if c2.cache.length % 100 = 0 then c2.cleanup_expired now else c2

/-! ### Cache manager (cache_service.py, class CacheManager) -/

/-- Keyword-argument call of MemoryCache.__init__. The only accepted
parameter name is default_ttl (with default 300); any other keyword
raises a TypeError, as does passing the same parameter twice. -/
def MemoryCache.initKwargs (α : Type) (kwargs : List (String × ℚ)) :
    Except String (MemoryCache α) :=
  match kwargs with
  | [] => .ok (MemoryCache.init α 300)
  | [(k, v)] =>
    if k = "default_ttl" then .ok (MemoryCache.init α v)
    else .error ("TypeError: __init__() got an unexpected keyword argument " ++ k)
  | _ => .error "TypeError: __init__() got multiple keyword arguments"

/-- CacheManager.caches: the five cache domains. -/
structure CacheManager (α : Type) where
  caches : List (String × MemoryCache α)

/-- CacheManager.__init__ as written in cache_service.py lines 107-115:
each domain is constructed with the keyword argument ttl=..., although
the MemoryCache signature names the parameter default_ttl. -/
def CacheManager.init (α : Type) : Except String (CacheManager α) := do
  let price_data ← MemoryCache.initKwargs α [("ttl", 30)]
  let market_data ← MemoryCache.initKwargs α [("ttl", 60)]
  let strategy_data ← MemoryCache.initKwargs α [("ttl", 300)]
  let user_data ← MemoryCache.initKwargs α [("ttl", 600)]
  let config_data ← MemoryCache.initKwargs α [("ttl", 3600)]
  pure { caches := [("price_data", price_data), ("market_data", market_data),
                    ("strategy_data", strategy_data), ("user_data", user_data),
                    ("config_data", config_data)] }

/-! ### Connection manager (websocket_service.py, class ConnectionManager) -/

/-- One entry of ConnectionManager.active_connections: the websocket
handle (modelled by whether its send_text raises) and the subscription
set. The connected_at timestamp is irrelevant to the claims and omitted
from comparisons by keeping it in the record. -/
structure Conn where
  transportOk : Bool
  subscriptions : List String
  connected_at : ℚ
deriving DecidableEq

/-- The three dicts of ConnectionManager.__init__: active_connections,
symbol_subscribers, notification_history. -/
structure CMState where
  active_connections : List (Nat × Conn)
  symbol_subscribers : List (String × List Nat)
  notification_history : List (Nat × List (String × ℚ))
deriving DecidableEq

/-- ConnectionManager(): all three dicts empty. -/
def CMState.init : CMState :=
  { active_connections := [], symbol_subscribers := [], notification_history := [] }

/-- Body of the per-symbol cleanup in disconnect and unsubscribe_symbol:
if the symbol has an entry, discard the user from its set and delete the
entry when the set becomes empty. -/
def discardUser (idx : List (String × List Nat)) (sym : String) (uid : Nat) :
    List (String × List Nat) :=
  match alookup sym idx with
  | none => idx
  | some l =>
    let l2 := l.filter (fun x => x ≠ uid)
    if l2 = [] then aerase sym idx else ainsert sym l2 idx

/-- ConnectionManager.disconnect: for a connected user, discard it from
the reverse index under each of its subscribed symbols (pruning empty
entries), drop its connection entry, and drop its notification history.
For an unknown user the method does nothing. -/
def CMState.disconnect (st : CMState) (uid : Nat) : CMState :=
  match alookup uid st.active_connections with
  | none => st
  | some conn =>
    { active_connections := aerase uid st.active_connections
      symbol_subscribers :=
        conn.subscriptions.foldl (fun idx sym => discardUser idx sym uid) st.symbol_subscribers
      notification_history :=
        if (alookup uid st.notification_history).isSome then
          aerase uid st.notification_history
        else st.notification_history }

/-- ConnectionManager.send_personal_message: nothing happens for an
unknown user; a successful transport write delivers the payload; a
raising transport write is caught and answered by disconnect. Returns
the new state and the list of users the payload reached. -/
def CMState.send_personal_message (st : CMState) (uid : Nat) : CMState × List Nat :=
  match alookup uid st.active_connections with
  | none => (st, [])
  | some conn =>
    if conn.transportOk then (st, [uid]) else (st.disconnect uid, [])

/-- ConnectionManager.subscribe_symbol: for a connected user, add the
symbol to its session set and add the user to the reverse-index entry of
the symbol (creating the entry if needed). -/
def CMState.subscribe_symbol (st : CMState) (uid : Nat) (sym : String) : CMState :=
  match alookup uid st.active_connections with
  | none => st
  | some conn =>
    let conn2 := { conn with
      subscriptions :=
        if sym ∈ conn.subscriptions then conn.subscriptions else conn.subscriptions ++ [sym] }
    let idx := match alookup sym st.symbol_subscribers with
      | none => ainsert sym [uid] st.symbol_subscribers
      | some l => ainsert sym (if uid ∈ l then l else l ++ [uid]) st.symbol_subscribers
    { st with
      active_connections := ainsert uid conn2 st.active_connections
      symbol_subscribers := idx }

/-- ConnectionManager.unsubscribe_symbol: for a connected user, discard
the symbol from its session set and discard the user from the reverse
index, pruning an emptied entry. -/
def CMState.unsubscribe_symbol (st : CMState) (uid : Nat) (sym : String) : CMState :=
  match alookup uid st.active_connections with
  | none => st
  | some conn =>
    let conn2 := { conn with subscriptions := conn.subscriptions.filter (fun s => s ≠ sym) }
    { st with
      active_connections := ainsert uid conn2 st.active_connections
      symbol_subscribers := discardUser st.symbol_subscribers sym uid }

/-- ConnectionManager.can_send_notification, with time.time() passed as
now: an absent per-user dict is first created empty; the last
notification time defaults to 0; when now minus that is at least the
interval, now is recorded and the gate opens, otherwise it stays shut. -/
def CMState.can_send_notification (st : CMState) (now : ℚ) (uid : Nat) (sym : String)
    (interval_seconds : ℚ) : CMState × Bool :=
  let hist1 :=
    if (alookup uid st.notification_history).isSome then st.notification_history
    else ainsert uid [] st.notification_history
  let userHist := (alookup uid hist1).getD []
  let last_notification := (alookup sym userHist).getD 0
  if now - last_notification ≥ interval_seconds then
    ({ st with notification_history := ainsert uid (ainsert sym now userHist) hist1 }, true)
  else
    ({ st with notification_history := hist1 }, false)

/-- Loop body of ConnectionManager.broadcast_to_subscribers over the
CPython set iterator: every next() call on a set iterator, including the
final exhausting one, first compares the current set size with the size
recorded at iterator creation and raises RuntimeError on mismatch; the
body sends to the yielded user, and a transport failure there is handled
inside send_personal_message by disconnecting the user, which shrinks
the very set being iterated. Returns the final state, the users the
payload reached, and whether a RuntimeError escaped the loop. -/
def broadcastLoop (st : CMState) (sym : String) (pending : List Nat) (initSize : Nat)
    (delivered : List Nat) : CMState × List Nat × Bool :=
  match pending with
  | [] =>
    if ((alookup sym st.symbol_subscribers).getD []).length ≠ initSize then (st, delivered, true)
    else (st, delivered, false)
  | u :: rest =>
    if ((alookup sym st.symbol_subscribers).getD []).length ≠ initSize then (st, delivered, true)
    else
      let r := st.send_personal_message u
      broadcastLoop r.1 sym rest initSize (delivered ++ r.2)

/-- ConnectionManager.broadcast_to_subscribers: iterate the set of
subscribers of the symbol. The except branch around each send and the
disconnected_users cleanup list of the source are dead code, because
send_personal_message catches every exception itself, so they do not
appear in the result; the loop can still die with a RuntimeError from
the set iterator when a failing transport triggers a disconnect that
mutates the set mid-iteration. -/
def CMState.broadcast_to_subscribers (st : CMState) (sym : String) :
    CMState × List Nat × Bool :=
  match alookup sym st.symbol_subscribers with
  | none => (st, [], false)
  | some l => broadcastLoop st sym l l.length []

/-! ### Volume anomaly analysis (websocket_service.py,
RealTimeDataService._analyze_volume_anomaly) -/

/-- One OHLCV dict as produced by _get_historical_ohlcv_data. -/
structure OhlcvItem where
  timestamp : Int
  open_ : ℚ
  high : ℚ
  low : ℚ
  close : ℚ
  volume : ℚ
deriving DecidableEq

/-- The dict returned by _analyze_volume_anomaly. The source stores
std_dev = variance ** 0.5; the model stores the variance and phrases
the comparison through Real.sqrt of it inside is_anomaly. -/
structure VolumeAnalysisResult where
  is_anomaly : Prop
  current_volume : ℚ
  avg_volume : ℚ
  multiplier : ℚ
  variance : ℚ
  timestamp : Int
  price : ℚ

/-- The Python slice l[-20:-1]: all but the last element, keeping at
most the final 19 of those. -/
def sliceLast19 (l : List OhlcvItem) : List OhlcvItem :=
  (l.take (l.length - 1)).drop (l.length - 20)

/-- RealTimeDataService._analyze_volume_anomaly: None below 20 samples;
otherwise avg and population variance of the volumes of l[-20:-1], the
multiplier of the latest volume over avg (0 unless avg is positive), and
the two-part anomaly test multiplier ≥ threshold and
current > avg + 2 * std_dev. -/
def analyze_volume_anomaly (ohlcv_data : List OhlcvItem) (threshold : ℚ) :
    Option VolumeAnalysisResult :=
  if ohlcv_data.length < 20 then none
  else
    match ohlcv_data.getLast? with
    | none => none
    | some latest =>
      let recent_19 := sliceLast19 ohlcv_data
      let volumes := recent_19.map OhlcvItem.volume
      let avg_volume := volumes.sum / (volumes.length : ℚ)
      let variance := (volumes.map (fun vol => (vol - avg_volume) ^ 2)).sum / (volumes.length : ℚ)
      let current_volume := latest.volume
      let multiplier := if avg_volume > 0 then current_volume / avg_volume else 0
      some
        { is_anomaly :=
            threshold ≤ multiplier ∧
              (current_volume : ℝ) > (avg_volume : ℝ) + 2 * Real.sqrt (variance : ℝ)
          current_volume := current_volume
          avg_volume := avg_volume
          multiplier := multiplier
          variance := variance
          timestamp := latest.timestamp
          price := latest.close }

/-- Mean of a list of rationals, as the spec words it. -/
def listMean (l : List ℚ) : ℚ := l.sum / (l.length : ℚ)

/-- Population variance of a list of rationals; the population standard
deviation of the spec is its square root. -/
def popVariance (l : List ℚ) : ℚ :=
  (l.map (fun v => (v - listMean l) ^ 2)).sum / (l.length : ℚ)

/-! ### Single-flight data aggregator (cache_service.py, class
DataAggregator) under the asyncio event loop -/

/-- An asyncio.Event: the set flag and the tasks parked in wait(). -/
structure PyEvent where
  isSet : Bool
  waiters : List Nat
deriving DecidableEq

deriving instance DecidableEq for Except

/-- Where one caller of get_aggregated_data stands. ready0: created, not
yet run. eventWait: suspended in await pending_requests[key].wait().
fetchWait: suspended in await fetch_func(). fetchDone: the fetch
resolved with the given outcome and the task is ready to resume.
wokenWaiter: released by event.set(), about to read request_results.
finished: returned (ok, with None as none) or raised (error). -/
inductive TaskPhase where
  | ready0
  | eventWait
  | fetchWait
  | fetchDone (o : Except Nat Nat)
  | wokenWaiter
  | finished (r : Except Nat (Option Nat))
deriving DecidableEq

/-- Shared state of the aggregator run: the market_data MemoryCache, the
two dicts of DataAggregator, every task phase, the event-loop ready
queue, and a counter of fetch_func invocations. -/
structure AggState where
  cache : MemoryCache Nat
  pending_requests : List (String × PyEvent)
  request_results : List (String × Nat)
  tasks : List (Nat × TaskPhase)
  ready : List Nat
  fetchCalls : Nat
deriving DecidableEq

/-- Set the phase of one task. -/
def setPhase (tasks : List (Nat × TaskPhase)) (tid : Nat) (p : TaskPhase) :
    List (Nat × TaskPhase) :=
  ainsert tid p tasks

/-- Run one resumed task of get_aggregated_data(key, fetch_func, ttl)
until it suspends or finishes, at time now. This follows the source line
by line: check the cache; join a pending request if one exists (reading
request_results immediately when the event is already set); otherwise
become the fetcher and suspend in fetch_func. A resumed fetcher stores
the result in the cache and in request_results, sets the event (waking
the parked waiters), and then in the finally block deletes both the
pending event and the stored result before any waiter has resumed; a
failing fetch sets the event and re-raises. A woken waiter returns
request_results.get(key). -/
def stepTask (key : String) (ttl : ℚ) (now : ℚ) (st : AggState) (tid : Nat) : AggState :=
  match alookup tid st.tasks with
  | some .ready0 =>
    let g := st.cache.get key now
    let st1 := { st with cache := g.1 }
    match g.2 with
    | some v => { st1 with tasks := setPhase st1.tasks tid (.finished (.ok (some v))) }
    | none =>
      match alookup key st1.pending_requests with
      | some ev =>
        if ev.isSet then
          { st1 with
            tasks := setPhase st1.tasks tid (.finished (.ok (alookup key st1.request_results))) }
        else
          { st1 with
            pending_requests :=
              ainsert key { ev with waiters := ev.waiters ++ [tid] } st1.pending_requests
            tasks := setPhase st1.tasks tid .eventWait }
      | none =>
        { st1 with
          pending_requests := ainsert key { isSet := false, waiters := [] } st1.pending_requests
          tasks := setPhase st1.tasks tid .fetchWait
          fetchCalls := st1.fetchCalls + 1 }
  | some (.fetchDone o) =>
    let ev := (alookup key st.pending_requests).getD { isSet := false, waiters := [] }
    let wake := fun (s : AggState) =>
      { s with
        pending_requests := ainsert key { isSet := true, waiters := [] } s.pending_requests
        tasks := ev.waiters.foldl (fun ts w => setPhase ts w .wokenWaiter) s.tasks
        ready := s.ready ++ ev.waiters }
    match o with
    | .ok v =>
      let s1 := { st with
        cache := st.cache.set key v (some ttl) now
        request_results := ainsert key v st.request_results }
      let s2 := wake s1
      { s2 with
        pending_requests := aerase key s2.pending_requests
        request_results := aerase key s2.request_results
        tasks := setPhase s2.tasks tid (.finished (.ok (some v))) }
    | .error e =>
      let s2 := wake st
      { s2 with
        pending_requests := aerase key s2.pending_requests
        request_results := aerase key s2.request_results
        tasks := setPhase s2.tasks tid (.finished (.error e)) }
  | some .wokenWaiter =>
    { st with tasks := setPhase st.tasks tid (.finished (.ok (alookup key st.request_results))) }
  | _ => st

/-- First task suspended in fetch_func, by task id order of creation. -/
def firstFetchWait (tasks : List (Nat × TaskPhase)) : Option Nat :=
  match tasks with
  | [] => none
  | (tid, p) :: rest => if p = .fetchWait then some tid else firstFetchWait rest

/-- One scheduler step of the asyncio event loop: run the head of the
ready queue; when the queue is empty, the pending upstream fetch
completes with the given outcome and its task is rescheduled. -/
def stepMachine (key : String) (ttl : ℚ) (now : ℚ) (outcome : Except Nat Nat)
    (st : AggState) : AggState :=
  match st.ready with
  | tid :: rest => stepTask key ttl now { st with ready := rest } tid
  | [] =>
    match firstFetchWait st.tasks with
    | some tid =>
      { st with tasks := setPhase st.tasks tid (.fetchDone outcome), ready := [tid] }
    | none => st

/-- Iterate the scheduler. -/
def runMachine (fuel : Nat) (key : String) (ttl : ℚ) (now : ℚ) (outcome : Except Nat Nat)
    (st : AggState) : AggState :=
  match fuel with
  | 0 => st
  | n + 1 => runMachine n key ttl now outcome (stepMachine key ttl now outcome st)

/-- N callers of get_aggregated_data on the same key, created together
on an idle loop with an empty market_data cache (its default TTL is the
60 seconds intended for the market_data domain). -/
def aggInit (n : Nat) : AggState :=
  { cache := MemoryCache.init Nat 60
    pending_requests := []
    request_results := []
    tasks := (List.range n).map (fun i => (i, TaskPhase.ready0))
    ready := List.range n
    fetchCalls := 0 }

/-- Final result of one task. -/
def taskResult (st : AggState) (tid : Nat) : Option TaskPhase :=
  alookup tid st.tasks

/-! ### Small facts about countFailures and runCalls -/

theorem countFailures_nil {ε α : Type} : countFailures ([] : List (ℚ × Except ε α)) = 0 := rfl

theorem countFailures_cons_ok {ε α : Type} (t : ℚ) (a : α) (rest : List (ℚ × Except ε α)) :
    countFailures ((t, Except.ok a) :: rest) = countFailures rest := by
  simp [countFailures, List.filter]

theorem countFailures_cons_error {ε α : Type} (t : ℚ) (e : ε) (rest : List (ℚ × Except ε α)) :
    countFailures ((t, Except.error e) :: rest) = countFailures rest + 1 := by
  simp [countFailures, List.filter]

theorem runCalls_cons {ε α : Type} (t : ℚ) (o : Except ε α) (rest : List (ℚ × Except ε α))
    (cb : CircuitBreaker) :
    CircuitBreaker.runCalls ((t, o) :: rest) cb =
      CircuitBreaker.runCalls rest (cb.call t o).1 := rfl

/-- Claim C3: the cache manager is supposed to provide five cache
domains with default TTLs 30, 60, 300, 600 and 3600 seconds, but the
constructor passes the keyword ttl to MemoryCache.__init__, whose only
parameter is named default_ttl, so constructing the manager raises a
TypeError and no domain is ever built. This theorem evaluates the
construction at the failing input. -/
theorem c3_cache_manager_init_type_error :
    CacheManager.init Nat =
      Except.error "TypeError: __init__() got an unexpected keyword argument ttl" := rfl

/-- Claim C1: two concurrent callers of get_aggregated_data on one key
with an empty cache. The underlying fetch runs exactly once, but the
callers do not receive the same result: the finally block of the sole
fetcher deletes request_results[key] before any waiter resumes, so the
fetcher obtains the fetched value 42 while the waiter obtains None, and
on a failing fetch the fetcher sees the raised error 7 while the waiter
again obtains None instead of the propagated failure. -/
theorem c1_single_flight_waiter_gets_none :
    (runMachine 10 "k" 300 0 (Except.ok 42) (aggInit 2)).fetchCalls = 1 ∧
    taskResult (runMachine 10 "k" 300 0 (Except.ok 42) (aggInit 2)) 0 =
      some (.finished (.ok (some 42))) ∧
    taskResult (runMachine 10 "k" 300 0 (Except.ok 42) (aggInit 2)) 1 =
      some (.finished (.ok none)) ∧
    (runMachine 10 "k" 300 0 (Except.error 7) (aggInit 2)).fetchCalls = 1 ∧
    taskResult (runMachine 10 "k" 300 0 (Except.error 7) (aggInit 2)) 0 =
      some (.finished (.error 7)) ∧
    taskResult (runMachine 10 "k" 300 0 (Except.error 7) (aggInit 2)) 1 =
      some (.finished (.ok none)) := by decide

/-- Registry with users 1 and 2 subscribed to BTC where the transport
write of user 1 raises and that of user 2 succeeds. -/
def c2State : CMState :=
  { active_connections :=
      [(1, { transportOk := false, subscriptions := ["BTC"], connected_at := 0 }),
       (2, { transportOk := true, subscriptions := ["BTC"], connected_at := 0 })]
    symbol_subscribers := [("BTC", [1, 2])]
    notification_history := [] }

/-- Claim C2: with two subscribers of BTC whose first transport write
raises, the broadcast disconnects user 1 inside send_personal_message,
which discards 1 from the very set the broadcast loop is iterating; the
next step of the CPython set iterator then raises RuntimeError, so user
2, although still subscribed, never receives the payload and the error
escapes the broadcast. This theorem evaluates the code at that input:
nobody receives the payload, the iterator error is raised, user 1 is
removed and user 2 still sits in the registry. -/
theorem c2_broadcast_set_mutation_error :
    alookup "BTC" c2State.symbol_subscribers = some [1, 2] ∧
    (c2State.broadcast_to_subscribers "BTC").2.1 = [] ∧
    (c2State.broadcast_to_subscribers "BTC").2.2 = true ∧
    alookup 1 (c2State.broadcast_to_subscribers "BTC").1.active_connections = none ∧
    alookup "BTC" (c2State.broadcast_to_subscribers "BTC").1.symbol_subscribers = some [2] := by
  decide

/-- Claim C5: a breaker with threshold 5 and cool-down T. Five failed
calls open it with counter 5; while the cool-down has not elapsed any
further call fails with the service-unavailable error without invoking
the wrapped function and without touching the breaker; once the
cool-down has elapsed the gate moves the breaker to HALF_OPEN, the call
is attempted, and a single success resets it to CLOSED with counter 0. -/
theorem c5_breaker_trip_and_recover (T s1 s2 s3 s4 s5 t6 t7 : ℚ) (e v : Nat)
    (h6 : t6 - s5 < T) (h7 : T ≤ t7 - s5) :
    CircuitBreaker.runCalls
        ([(s1, Except.error e), (s2, Except.error e), (s3, Except.error e),
          (s4, Except.error e), (s5, Except.error e)] : List (ℚ × Except Nat Nat))
        (CircuitBreaker.init 5 T) =
      { failure_threshold := 5, timeout := T, failure_count := 5,
        last_failure_time := some s5, state := .OPEN } ∧
    (∀ fn : Except Nat Nat,
      CircuitBreaker.call
        { failure_threshold := 5, timeout := T, failure_count := 5,
          last_failure_time := some s5, state := .OPEN } t6 fn =
        ({ failure_threshold := 5, timeout := T, failure_count := 5,
           last_failure_time := some s5, state := .OPEN },
         .error .serviceUnavailable, false)) ∧
    CircuitBreaker.preCall
        { failure_threshold := 5, timeout := T, failure_count := 5,
          last_failure_time := some s5, state := .OPEN } t7 =
      some { failure_threshold := 5, timeout := T, failure_count := 5,
             last_failure_time := some s5, state := .HALF_OPEN } ∧
    CircuitBreaker.call
        { failure_threshold := 5, timeout := T, failure_count := 5,
          last_failure_time := some s5, state := .OPEN } t7 (Except.ok v : Except Nat Nat) =
      ({ failure_threshold := 5, timeout := T, failure_count := 0,
         last_failure_time := some s5, state := .CLOSED },
       .ok v, true) := by
  have hnotyet : ¬ (t6 - s5 ≥ T) := not_le.mpr h6
  refine ⟨rfl, ?_, ?_, ?_⟩
  · intro fn
    simp [CircuitBreaker.call, CircuitBreaker.preCall, CircuitBreaker.should_attempt_reset,
          hnotyet]
  · simp [CircuitBreaker.preCall, CircuitBreaker.should_attempt_reset, h7]
  · simp [CircuitBreaker.call, CircuitBreaker.preCall, CircuitBreaker.should_attempt_reset, h7]

/-- Witness for claim C5 at cool-down 60, failures at times 0..4, a
blocked call at time 30 and a successful recovery call at time 70. -/
theorem c5_breaker_trip_and_recover_witness :
    ((30 : ℚ) - 4 < 60 ∧ (60 : ℚ) ≤ 70 - 4) ∧
    (CircuitBreaker.runCalls
        ([(0, Except.error 0), (1, Except.error 0), (2, Except.error 0),
          (3, Except.error 0), (4, Except.error 0)] : List (ℚ × Except Nat Nat))
        (CircuitBreaker.init 5 60) =
      { failure_threshold := 5, timeout := 60, failure_count := 5,
        last_failure_time := some 4, state := .OPEN } ∧
    (∀ fn : Except Nat Nat,
      CircuitBreaker.call
        { failure_threshold := 5, timeout := 60, failure_count := 5,
          last_failure_time := some 4, state := .OPEN } 30 fn =
        ({ failure_threshold := 5, timeout := 60, failure_count := 5,
           last_failure_time := some 4, state := .OPEN },
         .error .serviceUnavailable, false)) ∧
    CircuitBreaker.preCall
        { failure_threshold := 5, timeout := 60, failure_count := 5,
          last_failure_time := some 4, state := .OPEN } 70 =
      some { failure_threshold := 5, timeout := 60, failure_count := 5,
             last_failure_time := some 4, state := .HALF_OPEN } ∧
    CircuitBreaker.call
        { failure_threshold := 5, timeout := 60, failure_count := 5,
          last_failure_time := some 4, state := .OPEN } 70 (Except.ok 9 : Except Nat Nat) =
      ({ failure_threshold := 5, timeout := 60, failure_count := 0,
         last_failure_time := some 4, state := .CLOSED },
       .ok 9, true)) :=
  ⟨⟨by norm_num, by norm_num⟩,
   c5_breaker_trip_and_recover 60 0 1 2 3 4 30 70 0 9 (by norm_num) (by norm_num)⟩

/-- Claim C6, counterexample: a breaker in HALF_OPEN reached with
counter 5 and threshold 5. A failed call does transition it back to
OPEN, but the counter becomes 6, not 1 as the claim states: the code
only ever increments the counter in _record_failure. -/
theorem c6_halfopen_counter_not_one :
    ((CircuitBreaker.call
        { failure_threshold := 5, timeout := 60, failure_count := 5,
          last_failure_time := some 0, state := .HALF_OPEN } 10
        (Except.error 0 : Except Nat Nat)).1.state = .OPEN) ∧
    ((CircuitBreaker.call
        { failure_threshold := 5, timeout := 60, failure_count := 5,
          last_failure_time := some 0, state := .HALF_OPEN } 10
        (Except.error 0 : Except Nat Nat)).1.failure_count = 6) ∧
    ¬ ((CircuitBreaker.call
        { failure_threshold := 5, timeout := 60, failure_count := 5,
          last_failure_time := some 0, state := .HALF_OPEN } 10
        (Except.error 0 : Except Nat Nat)).1.failure_count = 1) := by decide

/-- Claim C6, amended: in every HALF_OPEN breaker whose incremented
counter meets the threshold (true of all reachable HALF_OPEN states,
which are only entered from OPEN), a failed call transitions the breaker
back to OPEN with the counter incremented by one, not reset to 1. -/
theorem c6_halfopen_failure_reopens (cb : CircuitBreaker) (now : ℚ) (e : Nat)
    (hs : cb.state = .HALF_OPEN) (hc : cb.failure_threshold ≤ cb.failure_count + 1) :
    (cb.call now (Except.error e : Except Nat Nat)).1.state = .OPEN ∧
    (cb.call now (Except.error e : Except Nat Nat)).1.failure_count = cb.failure_count + 1 := by
  simp [CircuitBreaker.call, CircuitBreaker.preCall, hs, CircuitBreaker.record_failure, hc]

/-- Witness for the amended claim C6 at a breaker with counter 5,
threshold 5. -/
theorem c6_halfopen_failure_reopens_witness :
    (({ failure_threshold := 5, timeout := 60, failure_count := 5,
        last_failure_time := some 0, state := .HALF_OPEN } : CircuitBreaker).state = .HALF_OPEN ∧
     ({ failure_threshold := 5, timeout := 60, failure_count := 5,
        last_failure_time := some 0, state := .HALF_OPEN } : CircuitBreaker).failure_threshold ≤
       ({ failure_threshold := 5, timeout := 60, failure_count := 5,
          last_failure_time := some 0, state := .HALF_OPEN } : CircuitBreaker).failure_count + 1) ∧
    ((CircuitBreaker.call
        { failure_threshold := 5, timeout := 60, failure_count := 5,
          last_failure_time := some 0, state := .HALF_OPEN } 20
        (Except.error 3 : Except Nat Nat)).1.state = .OPEN ∧
     (CircuitBreaker.call
        { failure_threshold := 5, timeout := 60, failure_count := 5,
          last_failure_time := some 0, state := .HALF_OPEN } 20
        (Except.error 3 : Except Nat Nat)).1.failure_count =
       ({ failure_threshold := 5, timeout := 60, failure_count := 5,
          last_failure_time := some 0, state := .HALF_OPEN } : CircuitBreaker).failure_count + 1) :=
  ⟨⟨by decide, by decide⟩,
   c6_halfopen_failure_reopens _ 20 3 (by decide) (by decide)⟩

/-- Claim C9: while the breaker is CLOSED a successful call leaves the
failure counter untouched, so over any call sequence whose failures stay
below the threshold the breaker remains CLOSED with the counter equal to
the initial counter plus the number of failures, however the failures
are interleaved with successes; and as soon as one more failure makes
the accumulated counter reach the threshold, the breaker opens. -/
theorem c9_closed_counter_accumulates (l : List (ℚ × Except Nat Nat)) (cb : CircuitBreaker)
    (hs : cb.state = .CLOSED)
    (hlt : cb.failure_count + countFailures l < cb.failure_threshold) :
    (CircuitBreaker.runCalls l cb).state = .CLOSED ∧
    (CircuitBreaker.runCalls l cb).failure_count = cb.failure_count + countFailures l ∧
    (cb.failure_threshold ≤ cb.failure_count + countFailures l + 1 →
      ∀ (t : ℚ) (e : Nat),
        ((CircuitBreaker.runCalls l cb).call t (Except.error e : Except Nat Nat)).1.state =
          .OPEN) := by
  induction l generalizing cb with
  | nil =>
    refine ⟨hs, by simp [CircuitBreaker.runCalls, countFailures], ?_⟩
    intro hth t e
    have hnotopen : ¬ cb.state = BState.OPEN := by simp [hs]
    simp only [CircuitBreaker.runCalls, List.foldl_nil, countFailures_nil] at hth ⊢
    simp [CircuitBreaker.call, CircuitBreaker.preCall, hnotopen,
          CircuitBreaker.record_failure, hth]
  | cons p rest ih =>
    obtain ⟨t0, o⟩ := p
    have hnotopen : ¬ cb.state = BState.OPEN := by simp [hs]
    match o with
    | .ok a =>
      have hcall : (cb.call t0 (Except.ok a : Except Nat Nat)).1 = cb := by
        simp [CircuitBreaker.call, CircuitBreaker.preCall, hnotopen, hs]
      rw [runCalls_cons, hcall]
      rw [countFailures_cons_ok] at hlt
      have := ih cb hs hlt
      simpa [countFailures_cons_ok] using this
    | .error e0 =>
      have hcf := countFailures_cons_error t0 e0 rest
      have hcnt : cb.failure_count + 1 + countFailures rest < cb.failure_threshold := by
        rw [hcf] at hlt
        omega
      have hnotth : ¬ (cb.failure_threshold ≤ cb.failure_count + 1) := by omega
      have hcall : (cb.call t0 (Except.error e0 : Except Nat Nat)).1 =
          { cb with failure_count := cb.failure_count + 1, last_failure_time := some t0 } := by
        simp [CircuitBreaker.call, CircuitBreaker.preCall, hnotopen,
              CircuitBreaker.record_failure, hnotth]
      rw [runCalls_cons, hcall]
      have hrec := ih { cb with failure_count := cb.failure_count + 1,
                                last_failure_time := some t0 } hs hcnt
      have h21 : (CircuitBreaker.runCalls rest
            { cb with failure_count := cb.failure_count + 1,
                      last_failure_time := some t0 }).failure_count
          = cb.failure_count + 1 + countFailures rest := hrec.2.1
      refine ⟨hrec.1, ?_, ?_⟩
      · rw [hcf, h21]
        omega
      · intro hth t e
        apply hrec.2.2
        show cb.failure_threshold ≤ cb.failure_count + 1 + countFailures rest + 1
        rw [hcf] at hth
        omega

/-- Witness for claim C9: threshold 2, one success interleaved before
one failure, then a second failure opening the breaker. -/
theorem c9_closed_counter_accumulates_witness :
    ((CircuitBreaker.init 2 60).state = .CLOSED ∧
     (CircuitBreaker.init 2 60).failure_count +
       countFailures ([(0, Except.ok 5), (1, Except.error 3)] : List (ℚ × Except Nat Nat)) <
       (CircuitBreaker.init 2 60).failure_threshold) ∧
    ((CircuitBreaker.runCalls
        ([(0, Except.ok 5), (1, Except.error 3)] : List (ℚ × Except Nat Nat))
        (CircuitBreaker.init 2 60)).state = .CLOSED ∧
     (CircuitBreaker.runCalls
        ([(0, Except.ok 5), (1, Except.error 3)] : List (ℚ × Except Nat Nat))
        (CircuitBreaker.init 2 60)).failure_count =
       (CircuitBreaker.init 2 60).failure_count +
         countFailures ([(0, Except.ok 5), (1, Except.error 3)] : List (ℚ × Except Nat Nat)) ∧
     ((CircuitBreaker.init 2 60).failure_threshold ≤
         (CircuitBreaker.init 2 60).failure_count +
           countFailures ([(0, Except.ok 5), (1, Except.error 3)] : List (ℚ × Except Nat Nat)) +
             1 →
       ∀ (t : ℚ) (e : Nat),
         ((CircuitBreaker.runCalls
             ([(0, Except.ok 5), (1, Except.error 3)] : List (ℚ × Except Nat Nat))
             (CircuitBreaker.init 2 60)).call t
            (Except.error e : Except Nat Nat)).1.state = .OPEN)) :=
  ⟨⟨by decide, by decide⟩,
   c9_closed_counter_accumulates
     ([(0, Except.ok 5), (1, Except.error 3)] : List (ℚ × Except Nat Nat))
     (CircuitBreaker.init 2 60) (by decide) (by decide)⟩

/-- Claim C10: for a subscriber id with no active connection,
subscribe_symbol, unsubscribe_symbol, disconnect and
send_personal_message leave the whole manager state unchanged, raise
nothing, and deliver nothing. -/
theorem c10_unknown_user_noop (st : CMState) (uid : Nat) (sym : String)
    (h : alookup uid st.active_connections = none) :
    st.subscribe_symbol uid sym = st ∧
    st.unsubscribe_symbol uid sym = st ∧
    st.disconnect uid = st ∧
    st.send_personal_message uid = (st, []) := by
  refine ⟨?_, ?_, ?_, ?_⟩ <;>
    simp [CMState.subscribe_symbol, CMState.unsubscribe_symbol, CMState.disconnect,
          CMState.send_personal_message, h]

/-- Witness for claim C10 on the empty manager and user 1. -/
theorem c10_unknown_user_noop_witness :
    alookup 1 CMState.init.active_connections = none ∧
    (CMState.init.subscribe_symbol 1 "BTC" = CMState.init ∧
     CMState.init.unsubscribe_symbol 1 "BTC" = CMState.init ∧
     CMState.init.disconnect 1 = CMState.init ∧
     CMState.init.send_personal_message 1 = (CMState.init, [])) :=
  ⟨rfl, c10_unknown_user_noop CMState.init 1 "BTC" rfl⟩

/-! ### Notification throttle (ConnectionManager.can_send_notification) -/

/-- Recorded last-notification time of a (subscriber, symbol) pair. -/
def lastSentOf (st : CMState) (uid : Nat) (sym : String) : Option ℚ :=
  alookup sym ((alookup uid st.notification_history).getD [])

/-- Claim C7, counterexample: a pair with no recorded lastSent for which
the claim demands true. The code treats the missing record as lastSent
0, so with an interval larger than the clock value the first call
returns false. Clock 1760227200 is a realistic epoch timestamp and the
interval is 2000000000 seconds. -/
theorem c7_first_call_not_always_true :
    lastSentOf CMState.init 1 "BTC" = none ∧
    (CMState.init.can_send_notification 1760227200 1 "BTC" 2000000000).2 = false := by
  constructor
  · rfl
  · norm_num [CMState.can_send_notification, CMState.init, alookup, ainsert]

/-- Claim C7, amended: can_send_notification treats an absent recorded
lastSent as 0. It returns true and records now as the new lastSent
exactly when now minus that (defaulted) lastSent is at least the
interval; otherwise it returns false leaving every recorded lastSent
unchanged (at most creating an empty per-user entry). -/
theorem c7_throttle_gate (st : CMState) (now : ℚ) (uid : Nat) (sym : String) (itv : ℚ) :
    (itv ≤ now - ((lastSentOf st uid sym).getD 0) →
      (st.can_send_notification now uid sym itv).2 = true ∧
      lastSentOf (st.can_send_notification now uid sym itv).1 uid sym = some now) ∧
    (now - ((lastSentOf st uid sym).getD 0) < itv →
      (st.can_send_notification now uid sym itv).2 = false ∧
      ∀ (u : Nat) (s : String),
        lastSentOf (st.can_send_notification now uid sym itv).1 u s = lastSentOf st u s) := by
  cases hmem : alookup uid st.notification_history with
  | some uh =>
    have hls : (lastSentOf st uid sym).getD 0 = (alookup sym uh).getD 0 := by
      simp [lastSentOf, hmem]
    have heq : st.can_send_notification now uid sym itv =
        if itv ≤ now - (alookup sym uh).getD 0 then
          ({ st with notification_history :=
               ainsert uid (ainsert sym now uh) st.notification_history }, true)
        else (st, false) := by
      unfold CMState.can_send_notification
      simp only [hmem, Option.isSome_some, if_true, Option.getD_some]
    rw [heq]
    constructor
    · intro h
      rw [hls] at h
      rw [if_pos h]
      exact ⟨rfl, by simp [lastSentOf, alookup_ainsert_self]⟩
    · intro h
      rw [hls] at h
      rw [if_neg (not_le.mpr h)]
      exact ⟨rfl, fun u s => rfl⟩
  | none =>
    have hls : (lastSentOf st uid sym).getD 0 = 0 := by
      simp [lastSentOf, hmem, alookup]
    have heq : st.can_send_notification now uid sym itv =
        if itv ≤ now - (0 : ℚ) then
          ({ st with notification_history :=
               ainsert uid (ainsert sym now []) (ainsert uid [] st.notification_history) }, true)
        else ({ st with notification_history := ainsert uid [] st.notification_history },
              false) := by
      unfold CMState.can_send_notification
      simp only [hmem, Option.isSome_none, Bool.false_eq_true, if_false,
                 alookup_ainsert_self, Option.getD_some, alookup, Option.getD_none]
    rw [heq]
    constructor
    · intro h
      rw [hls] at h
      rw [if_pos h]
      refine ⟨rfl, ?_⟩
      simp [lastSentOf, alookup_ainsert_self]
    · intro h
      rw [hls] at h
      rw [if_neg (not_le.mpr h)]
      refine ⟨rfl, fun u s => ?_⟩
      by_cases hu : u = uid
      · subst hu
        simp [lastSentOf, alookup_ainsert_self, hmem, alookup]
      · simp [lastSentOf, alookup_ainsert_ne uid u [] st.notification_history hu]

/-- Witness for the amended claim C7: fresh manager, clock 200, interval
120; the first call opens the gate and records 200. -/
theorem c7_throttle_gate_witness :
    (120 : ℚ) ≤ 200 - ((lastSentOf CMState.init 1 "BTC").getD 0) ∧
    ((CMState.init.can_send_notification 200 1 "BTC" 120).2 = true ∧
     lastSentOf (CMState.init.can_send_notification 200 1 "BTC" 120).1 1 "BTC" = some 200) :=
  ⟨by norm_num [lastSentOf, CMState.init, alookup],
   (c7_throttle_gate CMState.init 200 1 "BTC" 120).1
     (by norm_num [lastSentOf, CMState.init, alookup])⟩

/-! ### Disconnect cleanup (ConnectionManager.disconnect) -/

/-- Effect of one discardUser pass on the entry of its own symbol:
filter the user out and drop the entry when it empties. -/
def pruneUser (uid : Nat) : Option (List Nat) → Option (List Nat)
  | none => none
  | some l =>
    let l2 := l.filter (fun x => x ≠ uid)
    if l2 = [] then none else some l2

theorem pruneUser_some (uid : Nat) (l : List Nat) :
    pruneUser uid (some l) =
      if l.filter (fun x => x ≠ uid) = [] then none
      else some (l.filter (fun x => x ≠ uid)) := rfl

theorem alookup_discardUser_eq (idx : List (String × List Nat)) (sym : String) (uid : Nat) :
    alookup sym (discardUser idx sym uid) = pruneUser uid (alookup sym idx) := by
  cases h : alookup sym idx with
  | none =>
    unfold discardUser
    rw [h]
    exact h
  | some l =>
    unfold discardUser
    rw [h, pruneUser_some]
    show alookup sym
        (if l.filter (fun x => x ≠ uid) = [] then aerase sym idx
         else ainsert sym (l.filter (fun x => x ≠ uid)) idx) = _
    by_cases h2 : l.filter (fun x => x ≠ uid) = []
    · rw [if_pos h2, if_pos h2, alookup_aerase_self]
    · rw [if_neg h2, if_neg h2, alookup_ainsert_self]

theorem alookup_discardUser_ne (idx : List (String × List Nat)) (sym sym2 : String) (uid : Nat)
    (hne : sym2 ≠ sym) :
    alookup sym2 (discardUser idx sym uid) = alookup sym2 idx := by
  cases h : alookup sym idx with
  | none =>
    unfold discardUser
    rw [h]
  | some l =>
    unfold discardUser
    rw [h]
    show alookup sym2
        (if l.filter (fun x => x ≠ uid) = [] then aerase sym idx
         else ainsert sym (l.filter (fun x => x ≠ uid)) idx) = _
    by_cases h2 : l.filter (fun x => x ≠ uid) = []
    · rw [if_pos h2, alookup_aerase_ne sym sym2 idx hne]
    · rw [if_neg h2, alookup_ainsert_ne sym sym2 _ idx hne]

theorem filter_ne_idem (uid : Nat) (l : List Nat) :
    (l.filter (fun x => x ≠ uid)).filter (fun x => x ≠ uid) = l.filter (fun x => x ≠ uid) := by
  induction l with
  | nil => rfl
  | cons a rest ih =>
    by_cases h : a = uid
    · simp [List.filter, h, ih]
    · simp [List.filter, h, ih]

theorem pruneUser_idem (uid : Nat) (o : Option (List Nat)) :
    pruneUser uid (pruneUser uid o) = pruneUser uid o := by
  cases o with
  | none => rfl
  | some l =>
    rw [pruneUser_some]
    by_cases h : l.filter (fun x => x ≠ uid) = []
    · rw [if_pos h]
      rfl
    · rw [if_neg h, pruneUser_some, filter_ne_idem, if_neg h]

/-- Lookup after the disconnect fold over the subscription list: entries
of symbols in the list are pruned of the user, the rest are untouched. -/
theorem alookup_foldl_discard (uid : Nat) (subs : List String) (sym : String)
    (idx : List (String × List Nat)) :
    alookup sym (subs.foldl (fun i s => discardUser i s uid) idx) =
      if sym ∈ subs then pruneUser uid (alookup sym idx) else alookup sym idx := by
  induction subs generalizing idx with
  | nil => simp
  | cons s rest ih =>
    simp only [List.foldl_cons]
    rw [ih (discardUser idx s uid)]
    by_cases hs : sym = s
    · subst hs
      rw [alookup_discardUser_eq]
      by_cases hmemr : sym ∈ rest
      · simp [hmemr, pruneUser_idem]
      · simp [hmemr]
    · rw [alookup_discardUser_ne idx s sym uid hs]
      by_cases hmemr : sym ∈ rest
      · simp [List.mem_cons, hmemr, hs]
      · simp [List.mem_cons, hmemr, hs]

/-- Claim C8: disconnecting a connected subscriber removes it from every
reverse-index entry, removes entirely any symbol whose entry held only
this subscriber, and clears the notification history of the subscriber.
The registry invariant that a subscriber only appears in index entries
of symbols inside its own session subscription set (which every
subscribe, unsubscribe and disconnect maintains) is the hypothesis. -/
theorem c8_disconnect_cleans_registry (st : CMState) (uid : Nat) (conn : Conn)
    (hconn : alookup uid st.active_connections = some conn)
    (hinv : ∀ (sym : String) (l : List Nat),
        alookup sym st.symbol_subscribers = some l → uid ∈ l → sym ∈ conn.subscriptions) :
    (∀ (sym : String) (l : List Nat),
        alookup sym (st.disconnect uid).symbol_subscribers = some l → uid ∉ l) ∧
    (∀ (sym : String) (l : List Nat),
        alookup sym st.symbol_subscribers = some l → uid ∈ l → (∀ x ∈ l, x = uid) →
          alookup sym (st.disconnect uid).symbol_subscribers = none) ∧
    alookup uid (st.disconnect uid).notification_history = none ∧
    alookup uid (st.disconnect uid).active_connections = none := by
  have hidx : (st.disconnect uid).symbol_subscribers =
      conn.subscriptions.foldl (fun idx sym => discardUser idx sym uid)
        st.symbol_subscribers := by
    unfold CMState.disconnect
    rw [hconn]
  have hact : (st.disconnect uid).active_connections = aerase uid st.active_connections := by
    unfold CMState.disconnect
    rw [hconn]
  have hhist : (st.disconnect uid).notification_history =
      (if (alookup uid st.notification_history).isSome then aerase uid st.notification_history
       else st.notification_history) := by
    unfold CMState.disconnect
    rw [hconn]
  refine ⟨?_, ?_, ?_, ?_⟩
  · intro sym l hl
    rw [hidx, alookup_foldl_discard] at hl
    by_cases hmem : sym ∈ conn.subscriptions
    · rw [if_pos hmem] at hl
      cases horig : alookup sym st.symbol_subscribers with
      | none =>
        rw [horig] at hl
        exact absurd hl (by simp [pruneUser])
      | some l0 =>
        rw [horig, pruneUser_some] at hl
        by_cases h0 : l0.filter (fun x => x ≠ uid) = []
        · rw [if_pos h0] at hl
          exact absurd hl (by simp)
        · rw [if_neg h0] at hl
          have hfl : l0.filter (fun x => x ≠ uid) = l := Option.some.inj hl
          rw [← hfl]
          intro hmf
          have hdec := (List.mem_filter.mp hmf).2
          simp at hdec
    · rw [if_neg hmem] at hl
      intro hm
      exact hmem (hinv sym l hl hm)
  · intro sym l hl hm hall
    have hsubs : sym ∈ conn.subscriptions := hinv sym l hl hm
    rw [hidx, alookup_foldl_discard, if_pos hsubs, hl, pruneUser_some]
    have hnil : l.filter (fun x => x ≠ uid) = [] := by
      rw [List.filter_eq_nil_iff]
      intro a ha
      simp [hall a ha]
    rw [if_pos hnil]
  · rw [hhist]
    by_cases hh : (alookup uid st.notification_history).isSome
    · rw [if_pos hh]
      exact alookup_aerase_self uid _
    · rw [if_neg hh]
      cases hcase : alookup uid st.notification_history with
      | none => rfl
      | some x =>
        rw [hcase] at hh
        simp at hh
  · rw [hact]
    exact alookup_aerase_self uid _

/-- Registry of the witness for claim C8: one connected user 1
subscribed to BTC, the index holding exactly that pair, and one recorded
notification time. -/
def c8WitnessState : CMState :=
  { active_connections :=
      [(1, { transportOk := true, subscriptions := ["BTC"], connected_at := 0 })]
    symbol_subscribers := [("BTC", [1])]
    notification_history := [(1, [("BTC", 5)])] }

/-- Session entry of user 1 in the witness registry for claim C8. -/
def c8WitnessConn : Conn :=
  { transportOk := true, subscriptions := ["BTC"], connected_at := 0 }

theorem c8WitnessState_inv (sym : String) (l : List Nat)
    (hl : alookup sym c8WitnessState.symbol_subscribers = some l) (_hm : 1 ∈ l) :
    sym ∈ c8WitnessConn.subscriptions := by
  by_cases hs : "BTC" = sym
  · subst hs
    simp [c8WitnessConn]
  · simp [c8WitnessState, alookup, hs] at hl

/-- Witness for claim C8 at the concrete one-user registry. -/
theorem c8_disconnect_cleans_registry_witness :
    (alookup 1 c8WitnessState.active_connections = some c8WitnessConn ∧
     (∀ (sym : String) (l : List Nat),
        alookup sym c8WitnessState.symbol_subscribers = some l → 1 ∈ l →
          sym ∈ c8WitnessConn.subscriptions)) ∧
    ((∀ (sym : String) (l : List Nat),
        alookup sym (c8WitnessState.disconnect 1).symbol_subscribers = some l → 1 ∉ l) ∧
     (∀ (sym : String) (l : List Nat),
        alookup sym c8WitnessState.symbol_subscribers = some l → 1 ∈ l → (∀ x ∈ l, x = 1) →
          alookup sym (c8WitnessState.disconnect 1).symbol_subscribers = none) ∧
     alookup 1 (c8WitnessState.disconnect 1).notification_history = none ∧
     alookup 1 (c8WitnessState.disconnect 1).active_connections = none) :=
  ⟨⟨rfl, c8WitnessState_inv⟩,
   c8_disconnect_cleans_registry c8WitnessState 1 c8WitnessConn rfl c8WitnessState_inv⟩

/-! ### Specification of the anomaly analysis (claim C4) -/

/-- Claim C4: below 20 samples the analysis returns absent; on a window
of at least 20 samples with nonnegative volumes it returns the mean and
population variance of the volumes of the 19 samples preceding the
latest, the multiplier latest volume over mean (0 when the mean is 0),
and an anomaly flag holding exactly when the multiplier reaches the
threshold and the latest volume exceeds the mean plus twice the
population standard deviation. -/
theorem c4_analyze_spec (pre : List OhlcvItem) (latest : OhlcvItem) (threshold : ℚ)
    (hlen : 19 ≤ pre.length)
    (hnn : ∀ x ∈ pre.drop (pre.length - 19), 0 ≤ x.volume) :
    (∀ w : List OhlcvItem, w.length < 20 → analyze_volume_anomaly w threshold = none) ∧
    (∃ r, analyze_volume_anomaly (pre ++ [latest]) threshold = some r ∧
      r.current_volume = latest.volume ∧
      r.avg_volume = listMean ((pre.drop (pre.length - 19)).map OhlcvItem.volume) ∧
      r.variance = popVariance ((pre.drop (pre.length - 19)).map OhlcvItem.volume) ∧
      r.multiplier = (if r.avg_volume = 0 then 0 else latest.volume / r.avg_volume) ∧
      (r.is_anomaly ↔
        (threshold ≤ r.multiplier ∧
          (latest.volume : ℝ) > (r.avg_volume : ℝ) + 2 * Real.sqrt (r.variance : ℝ)))) := by
  constructor
  · intro w hw
    unfold analyze_volume_anomaly
    rw [if_pos hw]
  · have hguard : ¬ ((pre ++ [latest]).length < 20) := by
      simp only [List.length_append, List.length_cons, List.length_nil]
      omega
    have hlast : (pre ++ [latest]).getLast? = some latest := List.getLast?_concat pre
    have hslice : sliceLast19 (pre ++ [latest]) = pre.drop (pre.length - 19) := by
      unfold sliceLast19
      have h1 : (pre ++ [latest]).length - 1 = pre.length := by simp
      have h2 : (pre ++ [latest]).length - 20 = pre.length - 19 := by
        simp only [List.length_append, List.length_cons, List.length_nil]
        omega
      rw [h1, h2, List.take_left]
    have heq : analyze_volume_anomaly (pre ++ [latest]) threshold = some
        { is_anomaly :=
            threshold ≤ (if listMean ((pre.drop (pre.length - 19)).map OhlcvItem.volume) > 0
                then latest.volume / listMean ((pre.drop (pre.length - 19)).map OhlcvItem.volume)
                else 0) ∧
              (latest.volume : ℝ) >
                ((listMean ((pre.drop (pre.length - 19)).map OhlcvItem.volume) : ℚ) : ℝ) +
                  2 * Real.sqrt
                    ((popVariance ((pre.drop (pre.length - 19)).map OhlcvItem.volume) : ℚ) : ℝ)
          current_volume := latest.volume
          avg_volume := listMean ((pre.drop (pre.length - 19)).map OhlcvItem.volume)
          multiplier :=
            if listMean ((pre.drop (pre.length - 19)).map OhlcvItem.volume) > 0
            then latest.volume / listMean ((pre.drop (pre.length - 19)).map OhlcvItem.volume)
            else 0
          variance := popVariance ((pre.drop (pre.length - 19)).map OhlcvItem.volume)
          timestamp := latest.timestamp
          price := latest.close } := by
      unfold analyze_volume_anomaly
      rw [if_neg hguard, hlast, hslice]
      rfl
    have hA0 : 0 ≤ listMean ((pre.drop (pre.length - 19)).map OhlcvItem.volume) := by
      apply div_nonneg
      · apply List.sum_nonneg
        intro x hx
        obtain ⟨y, hy, hxy⟩ := List.mem_map.mp hx
        rw [← hxy]
        exact hnn y hy
      · exact Nat.cast_nonneg _
    have hMeq : (if listMean ((pre.drop (pre.length - 19)).map OhlcvItem.volume) > 0
          then latest.volume / listMean ((pre.drop (pre.length - 19)).map OhlcvItem.volume)
          else 0)
        = (if listMean ((pre.drop (pre.length - 19)).map OhlcvItem.volume) = 0 then 0
           else latest.volume / listMean ((pre.drop (pre.length - 19)).map OhlcvItem.volume)) := by
      by_cases hz : listMean ((pre.drop (pre.length - 19)).map OhlcvItem.volume) = 0
      · rw [if_pos hz, if_neg]
        rw [hz]
        exact lt_irrefl 0
      · rw [if_neg hz, if_pos (lt_of_le_of_ne hA0 (Ne.symm hz))]
    exact ⟨_, heq, rfl, rfl, rfl, hMeq, Iff.rfl⟩

/-- One OHLCV sample with the given volume, used by the witness of
claim C4. -/
def c4Item (v : ℚ) : OhlcvItem :=
  { timestamp := 0, open_ := 100, high := 100, low := 100, close := 100, volume := v }

/-- Nineteen trailing samples of volume 100 for the witness of claim C4. -/
def c4Pre : List OhlcvItem := List.replicate 19 (c4Item 100)

/-- Witness for claim C4 on the window of 19 volumes 100 followed by a
latest volume of 500. -/
theorem c4_analyze_spec_witness :
    (19 ≤ c4Pre.length ∧ ∀ x ∈ c4Pre.drop (c4Pre.length - 19), 0 ≤ x.volume) ∧
    ((∀ w : List OhlcvItem, w.length < 20 → analyze_volume_anomaly w 2 = none) ∧
     (∃ r, analyze_volume_anomaly (c4Pre ++ [c4Item 500]) 2 = some r ∧
      r.current_volume = (c4Item 500).volume ∧
      r.avg_volume = listMean ((c4Pre.drop (c4Pre.length - 19)).map OhlcvItem.volume) ∧
      r.variance = popVariance ((c4Pre.drop (c4Pre.length - 19)).map OhlcvItem.volume) ∧
      r.multiplier = (if r.avg_volume = 0 then 0 else (c4Item 500).volume / r.avg_volume) ∧
      (r.is_anomaly ↔
        (2 ≤ r.multiplier ∧
          ((c4Item 500).volume : ℝ) > (r.avg_volume : ℝ) +
            2 * Real.sqrt (r.variance : ℝ))))) :=
  ⟨⟨by decide, by decide⟩,
   c4_analyze_spec c4Pre (c4Item 500) 2 (by decide) (by decide)⟩
